import Mathlib

/-!
Verification of the Committee ("VC") Ledger Engine of the repository.

The engine lives in `src/main.py`:
* `add_new_vc`          - create a committee record from form input;
* `view_all_vcs`        - contains the add-payment block (lines 243-285)
  and the remove-payment block (lines 325-359), both mutating the record
  dictionary in place and then recomputing derived fields;
* `interest_calculator` - the stateless what-if quote tool (lines 385-428).

Python floats are modelled as exact rationals (`Rat`); Python integers as
`Int`.  A Python division `a / b` raises `ZeroDivisionError` when `b == 0`,
which is modelled by `pdiv` returning `Except`.  The add/remove operations
mutate the record dictionary in place before recomputing, so they are
modelled as functions returning the final in-memory record state paired
with an optional error message: on an exception during the recompute, the
returned state keeps the partial mutation, exactly as the Python dict does
(the caller never persists a failed state, since `save_user_vcs` is only
reached on success).
-/

namespace VCTracker

/-- The committee record dictionary built by `add_new_vc` in `src/main.py`
(lines 185-206); the `created_at` timestamp is omitted as the engine never
reads it. -/
structure VC where
  name : String
  total_amount : ℚ
  num_members : ℤ
  current_month : ℤ
  months_left : ℤ
  bid_amount : ℚ
  start_date : String
  is_historical : Bool
  monthly_interest_rate : ℚ
  original_monthly : ℚ
  new_monthly : ℚ
  monthly_savings : ℚ
  total_savings : ℚ
  expected_total : ℚ
  total_paid : ℚ
  profit_percentage : ℚ
  monthly_payments : List ℚ
  payment_dates : List String
  interest_rates : List ℚ
deriving DecidableEq

/-- Python division: `a / b` raises `ZeroDivisionError` when `b == 0`. -/
def pdiv (a b : ℚ) : Except String ℚ :=
  if b = 0 then Except.error "ZeroDivisionError" else Except.ok (a / b)

/-- One iteration of the interest-rate loop (`src/main.py` lines 180-182 and
264-267): `x = total_amount - payment * num_members`; `y = x / months_left`
(unconditionally, so it raises when `months_left == 0`); the rate is
`(y / (payment * num_members)) * 100` when `x > 0`, else `0`. -/
def interest_rate_for (total_amount : ℚ) (num_members months_left : ℤ)
    (payment : ℚ) : Except String ℚ :=
  let x := total_amount - payment * (num_members : ℚ)
  match pdiv x (months_left : ℚ) with
  | Except.error e => Except.error e
  | Except.ok y =>
    if 0 < x then
      match pdiv y (payment * (num_members : ℚ)) with
      | Except.error e => Except.error e
      | Except.ok r => Except.ok (r * 100)
    else
      Except.ok 0

/-- The interest-rate loop over the payment list (`src/main.py` lines
178-183 / 262-268), accumulating one rate per payment and propagating the
first exception. -/
def map_rates (total_amount : ℚ) (num_members months_left : ℤ) :
    List ℚ → Except String (List ℚ)
  | [] => Except.ok []
  | p :: ps =>
    match interest_rate_for total_amount num_members months_left p with
    | Except.error e => Except.error e
    | Except.ok r =>
      match map_rates total_amount num_members months_left ps with
      | Except.error e => Except.error e
      | Except.ok rs => Except.ok (r :: rs)

/-- `add_new_vc` in `src/main.py` (lines 116-210): validates the form input
and builds the record dictionary.  `months_completed = current_month` and
`months_left = num_members - current_month` (lines 129-130); the derived
fields follow lines 166-206 in source order. -/
def add_new_vc (vc_name : String) (total_amount : ℚ)
    (num_members current_month : ℤ) (start_date : String)
    (monthly_payments : List ℚ) (payment_dates : List String) :
    Except String VC :=
  if vc_name = "" then Except.error "Please enter a VC name"
  else if total_amount ≤ 0 then Except.error "Total amount must be greater than 0"
  else if num_members ≤ 0 then Except.error "Number of members must be greater than 0"
  else
    let months_completed := current_month
    let months_left := num_members - current_month
    match pdiv total_amount (num_members : ℚ) with
    | Except.error e => Except.error e
    | Except.ok expected_monthly =>
      let total_paid := monthly_payments.sum
      let expected_total := expected_monthly * (months_completed : ℚ)
      let total_savings := expected_total - total_paid
      let monthly_savings :=
        if 0 < months_completed then total_savings / (months_completed : ℚ) else 0
      let profit_percentage :=
        if 0 < expected_total then total_savings / expected_total * 100 else 0
      match map_rates total_amount num_members months_left monthly_payments with
      | Except.error e => Except.error e
      | Except.ok interest_rates =>
        match (match monthly_payments.getLast? with
               | some p => pdiv p (months_left : ℚ)
               | none => Except.ok (total_amount / (num_members : ℚ))) with
        | Except.error e => Except.error e
        | Except.ok new_monthly =>
          Except.ok
            { name := vc_name
              total_amount := total_amount
              num_members := num_members
              current_month := current_month
              months_left := months_left
              bid_amount :=
                (monthly_payments.getLast?).getD (total_amount / (num_members : ℚ))
              start_date := start_date
              is_historical := months_left == 0
              monthly_interest_rate := (interest_rates.getLast?).getD 0
              original_monthly := expected_monthly
              new_monthly := new_monthly
              monthly_savings := monthly_savings
              total_savings := total_savings
              expected_total := expected_total
              total_paid := total_paid
              profit_percentage := profit_percentage
              monthly_payments := monthly_payments
              payment_dates := payment_dates
              interest_rates := interest_rates }

/-- The in-place mutation performed by the add-payment block before any
recomputation (`src/main.py` lines 249-252): append to both sequences,
increment `current_month`, decrement `months_left` (no floor). -/
def appended (vc : VC) (amount : ℚ) (date : String) : VC :=
  { vc with
    monthly_payments := vc.monthly_payments ++ [amount]
    payment_dates := vc.payment_dates ++ [date]
    current_month := vc.current_month + 1
    months_left := vc.months_left - 1 }

/-- The recompute of the add-payment block (`src/main.py` lines 254-280),
run on the already-mutated record: derived fields in source order, with the
unguarded divisions modelled by `pdiv`. -/
def recompute_add (vc : VC) (amount : ℚ) : Except String VC :=
  match pdiv vc.total_amount (vc.num_members : ℚ) with
  | Except.error e => Except.error e
  | Except.ok expected_monthly =>
    let total_paid := vc.monthly_payments.sum
    let expected_total := expected_monthly * (vc.monthly_payments.length : ℚ)
    let total_savings := expected_total - total_paid
    match pdiv total_savings (vc.monthly_payments.length : ℚ) with
    | Except.error e => Except.error e
    | Except.ok monthly_savings =>
      let profit_percentage :=
        if 0 < expected_total then total_savings / expected_total * 100 else 0
      match map_rates vc.total_amount vc.num_members vc.months_left
              vc.monthly_payments with
      | Except.error e => Except.error e
      | Except.ok interest_rates =>
        match pdiv amount (vc.months_left : ℚ) with
        | Except.error e => Except.error e
        | Except.ok new_monthly =>
          Except.ok
            { vc with
              original_monthly := expected_monthly
              new_monthly := new_monthly
              monthly_savings := monthly_savings
              total_savings := total_savings
              expected_total := expected_total
              total_paid := total_paid
              profit_percentage := profit_percentage
              interest_rates := interest_rates }

/-- The add-payment block of `view_all_vcs` (`src/main.py` lines 243-285):
validation, in-place mutation, then recompute.  The returned pair is the
final in-memory record state and the error, if any: on a recompute
exception the state keeps the partial mutation of lines 249-252. -/
def add_payment (vc : VC) (amount : ℚ) (date : String) : VC × Option String :=
  if amount ≤ 0 then (vc, some "Payment amount must be greater than 0")
  else
    match recompute_add (appended vc amount date) amount with
    | Except.ok v => (v, none)
    | Except.error e => (appended vc amount date, some e)

/-- The in-place mutation performed by the remove-payment block
(`src/main.py` lines 327-335): pop index `i` from all three sequences, then
set `current_month = len(payments) + 1` and
`months_left = num_members - len(payments)` from the popped list. -/
def popped (vc : VC) (i : ℕ) : VC :=
  { vc with
    monthly_payments := vc.monthly_payments.eraseIdx i
    payment_dates := vc.payment_dates.eraseIdx i
    interest_rates := vc.interest_rates.eraseIdx i
    current_month := ((vc.monthly_payments.eraseIdx i).length : ℤ) + 1
    months_left := vc.num_members - ((vc.monthly_payments.eraseIdx i).length : ℤ) }

/-- The recompute of the remove-payment block (`src/main.py` lines 337-354),
run on the popped record.  Note that it updates `new_monthly` and the
step-3-to-5 fields but neither `interest_rates` (beyond the pop) nor
`bid_amount`. -/
def recompute_remove (vc : VC) : Except String VC :=
  match pdiv vc.total_amount (vc.num_members : ℚ) with
  | Except.error e => Except.error e
  | Except.ok expected_monthly =>
    let total_paid := vc.monthly_payments.sum
    let expected_total := expected_monthly * (vc.monthly_payments.length : ℚ)
    let total_savings := expected_total - total_paid
    let monthly_savings :=
      if vc.monthly_payments = [] then 0
      else total_savings / (vc.monthly_payments.length : ℚ)
    let profit_percentage :=
      if 0 < expected_total then total_savings / expected_total * 100 else 0
    match (match vc.monthly_payments.getLast? with
           | some p => pdiv p (vc.months_left : ℚ)
           | none => Except.ok expected_monthly) with
    | Except.error e => Except.error e
    | Except.ok new_monthly =>
      Except.ok
        { vc with
          original_monthly := expected_monthly
          new_monthly := new_monthly
          monthly_savings := monthly_savings
          total_savings := total_savings
          expected_total := expected_total
          total_paid := total_paid
          profit_percentage := profit_percentage }

/-- The remove-payment block of `view_all_vcs` (`src/main.py` lines
325-359).  Each `.pop(i)` raises `IndexError` when `i` is out of range, and
the pops happen in sequence, so an out-of-range pop leaves the earlier pops
applied; on success the popped record is recomputed. -/
def remove_payment (vc : VC) (i : ℕ) : VC × Option String :=
  if i < vc.monthly_payments.length then
    if i < vc.payment_dates.length then
      if i < vc.interest_rates.length then
        match recompute_remove (popped vc i) with
        | Except.ok v => (v, none)
        | Except.error e => (popped vc i, some e)
      else
        ({ vc with
           monthly_payments := vc.monthly_payments.eraseIdx i
           payment_dates := vc.payment_dates.eraseIdx i }, some "IndexError")
    else
      ({ vc with monthly_payments := vc.monthly_payments.eraseIdx i },
       some "IndexError")
  else (vc, some "IndexError")

/-- Output of the stateless quote tool `interest_calculator`. -/
structure CalcResult where
  expected_monthly : ℚ
  remaining_amount : ℚ
  monthly_bid : ℚ
  monthly_interest_rate : ℚ
  new_monthly : ℚ
  monthly_savings : ℚ
deriving DecidableEq

/-- `interest_calculator` in `src/main.py` (lines 376-428): all four inputs
must be positive; `x = total_vc - bid_amount` must be positive; then
`y = bid_amount / months_left`, `rate = (y / x) * 100`,
`new_monthly = bid_amount / num_members`,
`monthly_savings = expected_monthly - new_monthly`, and
`remaining_amount = total_vc - bid_amount` (which equals `x`). -/
def interest_calculator (total_vc : ℚ) (num_members months_left : ℤ)
    (bid_amount : ℚ) : Except String CalcResult :=
  if 0 < total_vc ∧ 0 < months_left ∧ 0 < bid_amount ∧ 0 < num_members then
    let expected_monthly := total_vc / (num_members : ℚ)
    let x := total_vc - bid_amount
    let y := bid_amount / (months_left : ℚ)
    if 0 < x then
      Except.ok
        { expected_monthly := expected_monthly
          remaining_amount := total_vc - bid_amount
          monthly_bid := y
          monthly_interest_rate := y / x * 100
          new_monthly := bid_amount / (num_members : ℚ)
          monthly_savings := expected_monthly - bid_amount / (num_members : ℚ) }
    else
      Except.error "The difference between Total VC and Bid Amount cannot be zero"
  else
    Except.error "Please enter valid values for all fields"

/-! ### Helper lemmas about the embedded operations -/

lemma pdiv_ok_of_ne (a : ℚ) {b : ℚ} (hb : b ≠ 0) : pdiv a b = Except.ok (a / b) := by
  simp [pdiv, hb]

lemma pdiv_ok_inv {a b c : ℚ} (h : pdiv a b = Except.ok c) : b ≠ 0 ∧ c = a / b := by
  unfold pdiv at h
  split at h
  · cases h
  · rename_i hb
    cases h
    exact ⟨hb, rfl⟩

lemma pdiv_error_inv {a b : ℚ} {e : String} (h : pdiv a b = Except.error e) :
    e = "ZeroDivisionError" ∧ b = 0 := by
  unfold pdiv at h
  split at h
  · rename_i hb
    cases h
    exact ⟨rfl, hb⟩
  · cases h

lemma map_rates_length {t : ℚ} {m ml : ℤ} :
    ∀ {l rs : List ℚ}, map_rates t m ml l = Except.ok rs → rs.length = l.length := by
  intro l
  induction l with
  | nil =>
    intro rs h
    unfold map_rates at h
    cases h
    rfl
  | cons p ps ih =>
    intro rs h
    unfold map_rates at h
    split at h
    · cases h
    · split at h
      · cases h
      · rename_i rs2 hrs2
        cases h
        simp [ih hrs2]

lemma map_rates_zero_ml (t : ℚ) (m : ℤ) {l : List ℚ} (hl : l ≠ []) :
    map_rates t m 0 l = Except.error "ZeroDivisionError" := by
  cases l with
  | nil => exact absurd rfl hl
  | cons p ps => simp [map_rates, interest_rate_for, pdiv]

lemma eraseIdx_append_singleton {α : Type} (l : List α) (x : α) :
    (l ++ [x]).eraseIdx l.length = l := by
  induction l with
  | nil => rfl
  | cons a t ih => simp [List.eraseIdx_cons_succ, ih]

/-- Success of the add-payment recompute forces every divisor to be
nonzero and determines the result record. -/
lemma recompute_add_ok_intro (vc : VC) (a : ℚ) (rs : List ℚ)
    (hm : (vc.num_members : ℚ) ≠ 0)
    (hl : ((vc.monthly_payments.length : ℚ)) ≠ 0)
    (hml : ((vc.months_left : ℚ)) ≠ 0)
    (hrs : map_rates vc.total_amount vc.num_members vc.months_left
        vc.monthly_payments = Except.ok rs) :
    recompute_add vc a = Except.ok
      { vc with
        original_monthly := vc.total_amount / (vc.num_members : ℚ)
        new_monthly := a / (vc.months_left : ℚ)
        monthly_savings := (vc.total_amount / (vc.num_members : ℚ) *
          (vc.monthly_payments.length : ℚ) - vc.monthly_payments.sum) /
          (vc.monthly_payments.length : ℚ)
        total_savings := vc.total_amount / (vc.num_members : ℚ) *
          (vc.monthly_payments.length : ℚ) - vc.monthly_payments.sum
        expected_total := vc.total_amount / (vc.num_members : ℚ) *
          (vc.monthly_payments.length : ℚ)
        total_paid := vc.monthly_payments.sum
        profit_percentage :=
          if 0 < vc.total_amount / (vc.num_members : ℚ) *
              (vc.monthly_payments.length : ℚ) then
            (vc.total_amount / (vc.num_members : ℚ) *
              (vc.monthly_payments.length : ℚ) - vc.monthly_payments.sum) /
            (vc.total_amount / (vc.num_members : ℚ) *
              (vc.monthly_payments.length : ℚ)) * 100
          else 0
        interest_rates := rs } := by
  simp [recompute_add, pdiv, hm, hl, hml, hrs]

lemma recompute_add_ok_conds {vc : VC} {a : ℚ} {v : VC}
    (h : recompute_add vc a = Except.ok v) :
    (vc.num_members : ℚ) ≠ 0 ∧ ((vc.monthly_payments.length : ℚ)) ≠ 0 ∧
    ((vc.months_left : ℚ)) ≠ 0 ∧
    map_rates vc.total_amount vc.num_members vc.months_left
      vc.monthly_payments = Except.ok v.interest_rates := by
  unfold recompute_add at h
  cases h1 : pdiv vc.total_amount (vc.num_members : ℚ) with
  | error e => simp only [h1] at h; cases h
  | ok em =>
    simp only [h1] at h
    cases h2 : pdiv (em * (vc.monthly_payments.length : ℚ) -
        vc.monthly_payments.sum) (vc.monthly_payments.length : ℚ) with
    | error e => simp only [h2] at h; cases h
    | ok ms =>
      simp only [h2] at h
      cases h3 : map_rates vc.total_amount vc.num_members vc.months_left
          vc.monthly_payments with
      | error e => simp only [h3] at h; cases h
      | ok rs =>
        simp only [h3] at h
        cases h4 : pdiv a (vc.months_left : ℚ) with
        | error e => simp only [h4] at h; cases h
        | ok nm =>
          simp only [h4] at h
          cases h
          exact ⟨(pdiv_ok_inv h1).1, (pdiv_ok_inv h2).1, (pdiv_ok_inv h4).1, rfl⟩

lemma recompute_add_ok_unchanged {vc : VC} {a : ℚ} {v : VC}
    (h : recompute_add vc a = Except.ok v) :
    v.monthly_payments = vc.monthly_payments ∧
    v.payment_dates = vc.payment_dates ∧
    v.bid_amount = vc.bid_amount ∧
    v.months_left = vc.months_left ∧
    v.current_month = vc.current_month ∧
    v.num_members = vc.num_members ∧
    v.total_amount = vc.total_amount ∧
    v.name = vc.name := by
  unfold recompute_add at h
  cases h1 : pdiv vc.total_amount (vc.num_members : ℚ) with
  | error e => simp only [h1] at h; cases h
  | ok em =>
    simp only [h1] at h
    cases h2 : pdiv (em * (vc.monthly_payments.length : ℚ) -
        vc.monthly_payments.sum) (vc.monthly_payments.length : ℚ) with
    | error e => simp only [h2] at h; cases h
    | ok ms =>
      simp only [h2] at h
      cases h3 : map_rates vc.total_amount vc.num_members vc.months_left
          vc.monthly_payments with
      | error e => simp only [h3] at h; cases h
      | ok rs =>
        simp only [h3] at h
        cases h4 : pdiv a (vc.months_left : ℚ) with
        | error e => simp only [h4] at h; cases h
        | ok nm =>
          simp only [h4] at h
          cases h
          simp

lemma add_payment_ok_inv {vc v : VC} {a : ℚ} {d : String}
    (h : add_payment vc a d = (v, none)) :
    0 < a ∧ recompute_add (appended vc a d) a = Except.ok v := by
  unfold add_payment at h
  split at h
  · simp at h
  · rename_i ha
    split at h
    · rename_i w hw
      simp only [Prod.mk.injEq] at h
      exact ⟨not_le.mp (by assumption), by rw [hw, h.1]⟩
    · simp at h

lemma recompute_remove_ok_of_nil {vc : VC} (hm : (vc.num_members : ℚ) ≠ 0)
    (he : vc.monthly_payments = []) :
    recompute_remove vc = Except.ok
      { vc with
        original_monthly := vc.total_amount / (vc.num_members : ℚ)
        new_monthly := vc.total_amount / (vc.num_members : ℚ)
        monthly_savings := 0
        total_savings := 0
        expected_total := 0
        total_paid := 0
        profit_percentage := 0 } := by
  simp [recompute_remove, pdiv, hm, he]

lemma recompute_remove_ok_of_ne_nil {vc : VC} (hm : (vc.num_members : ℚ) ≠ 0)
    (hne : vc.monthly_payments ≠ []) (hml : ((vc.months_left : ℚ)) ≠ 0) :
    recompute_remove vc = Except.ok
      { vc with
        original_monthly := vc.total_amount / (vc.num_members : ℚ)
        new_monthly := vc.monthly_payments.getLast hne / (vc.months_left : ℚ)
        monthly_savings := (vc.total_amount / (vc.num_members : ℚ) *
          (vc.monthly_payments.length : ℚ) - vc.monthly_payments.sum) /
          (vc.monthly_payments.length : ℚ)
        total_savings := vc.total_amount / (vc.num_members : ℚ) *
          (vc.monthly_payments.length : ℚ) - vc.monthly_payments.sum
        expected_total := vc.total_amount / (vc.num_members : ℚ) *
          (vc.monthly_payments.length : ℚ)
        total_paid := vc.monthly_payments.sum
        profit_percentage :=
          if 0 < vc.total_amount / (vc.num_members : ℚ) *
              (vc.monthly_payments.length : ℚ) then
            (vc.total_amount / (vc.num_members : ℚ) *
              (vc.monthly_payments.length : ℚ) - vc.monthly_payments.sum) /
            (vc.total_amount / (vc.num_members : ℚ) *
              (vc.monthly_payments.length : ℚ)) * 100
          else 0 } := by
  simp [recompute_remove, pdiv, hm, hml, hne,
    List.getLast?_eq_getLast_of_ne_nil hne]

lemma recompute_remove_ok_unchanged {vc v : VC}
    (h : recompute_remove vc = Except.ok v) :
    v.monthly_payments = vc.monthly_payments ∧
    v.payment_dates = vc.payment_dates ∧
    v.interest_rates = vc.interest_rates ∧
    v.bid_amount = vc.bid_amount ∧
    v.months_left = vc.months_left ∧
    v.current_month = vc.current_month ∧
    v.num_members = vc.num_members ∧
    v.total_amount = vc.total_amount := by
  unfold recompute_remove at h
  cases h1 : pdiv vc.total_amount (vc.num_members : ℚ) with
  | error e => simp only [h1] at h; cases h
  | ok em =>
    simp only [h1] at h
    cases h2 : vc.monthly_payments.getLast? with
    | none =>
      simp only [h2] at h
      cases h
      simp
    | some p =>
      simp only [h2] at h
      cases h3 : pdiv p (vc.months_left : ℚ) with
      | error e => simp only [h3] at h; cases h
      | ok nm2 =>
        simp only [h3] at h
        cases h
        simp

lemma remove_payment_ok_inv {vc v : VC} {i : ℕ}
    (h : remove_payment vc i = (v, none)) :
    i < vc.monthly_payments.length ∧ i < vc.payment_dates.length ∧
    i < vc.interest_rates.length ∧
    recompute_remove (popped vc i) = Except.ok v := by
  unfold remove_payment at h
  split at h
  · rename_i hi
    split at h
    · rename_i hd
      split at h
      · rename_i hr
        split at h
        · rename_i w hw
          simp only [Prod.mk.injEq] at h
          exact ⟨hi, hd, hr, by rw [hw, h.1]⟩
        · simp at h
      · simp at h
    · simp at h
  · simp at h

lemma add_new_vc_ok_inv {nm sd : String} {t : ℚ} {m c : ℤ} {ps : List ℚ}
    {ds : List String} {v : VC}
    (h : add_new_vc nm t m c sd ps ds = Except.ok v) :
    v.monthly_payments = ps ∧ v.payment_dates = ds ∧
    map_rates t m (m - c) ps = Except.ok v.interest_rates ∧
    v.bid_amount = ps.getLast?.getD (t / (m : ℚ)) := by
  unfold add_new_vc at h
  split at h
  · cases h
  · split at h
    · cases h
    · split at h
      · cases h
      · cases h1 : pdiv t (m : ℚ) with
        | error e => simp only [h1] at h; cases h
        | ok em =>
          simp only [h1] at h
          cases h2 : map_rates t m (m - c) ps with
          | error e => simp only [h2] at h; cases h
          | ok rs =>
            simp only [h2] at h
            cases h3 : ps.getLast? with
            | none =>
              simp only [h3] at h
              cases h
              simp
            | some p =>
              simp only [h3] at h
              cases h4 : pdiv p ((m - c : ℤ) : ℚ) with
              | error e => simp only [h4] at h; cases h
              | ok nm2 =>
                simp only [h4] at h
                cases h
                simp

/-! ### Concrete engine-produced records used as test vectors -/

/-- The record produced by
`add_new_vc "VC" 120000 12 1 "2024-01-01" [9000] ["2024-01-15"]`:
the scenario of spec section 8 (total 120000, 12 members, payment 9000 at
period 1). -/
def scenarioVC : VC :=
  { name := "VC", total_amount := 120000, num_members := 12, current_month := 1,
    months_left := 11, bid_amount := 9000, start_date := "2024-01-01",
    is_historical := false, monthly_interest_rate := 100 / 99,
    original_monthly := 10000, new_monthly := 9000 / 11, monthly_savings := 1000,
    total_savings := 1000, expected_total := 10000, total_paid := 9000,
    profit_percentage := 10, monthly_payments := [9000],
    payment_dates := ["2024-01-15"], interest_rates := [100 / 99] }

/-- The closed record produced by
`add_new_vc "Closed" 120000 12 12 "2024-01-01" [] []`: `months_left = 0`. -/
def closedVC : VC :=
  { name := "Closed", total_amount := 120000, num_members := 12,
    current_month := 12, months_left := 0, bid_amount := 10000,
    start_date := "2024-01-01", is_historical := true,
    monthly_interest_rate := 0, original_monthly := 10000,
    new_monthly := 10000, monthly_savings := 10000, total_savings := 120000,
    expected_total := 120000, total_paid := 0, profit_percentage := 100,
    monthly_payments := [], payment_dates := [], interest_rates := [] }

/-- The record produced by
`add_new_vc "VC" 120000 12 2 "2024-01-01" [9000, 9000] ["2024-01-15", "2024-02-15"]`:
two recorded payments, `months_left = 10`. -/
def twoPaymentVC : VC :=
  { name := "VC", total_amount := 120000, num_members := 12, current_month := 2,
    months_left := 10, bid_amount := 9000, start_date := "2024-01-01",
    is_historical := false, monthly_interest_rate := 10 / 9,
    original_monthly := 10000, new_monthly := 900, monthly_savings := 1000,
    total_savings := 2000, expected_total := 20000, total_paid := 18000,
    profit_percentage := 10, monthly_payments := [9000, 9000],
    payment_dates := ["2024-01-15", "2024-02-15"],
    interest_rates := [10 / 9, 10 / 9] }

/-- The record produced by `add_new_vc "VC" 120000 12 11 "2024-01-01"`
with eleven back-filled payments of 9000: `months_left = 1`, one period
remaining. -/
def lastPeriodVC : VC :=
  { name := "VC", total_amount := 120000, num_members := 12,
    current_month := 11, months_left := 1, bid_amount := 9000,
    start_date := "2024-01-01", is_historical := false,
    monthly_interest_rate := 100 / 9, original_monthly := 10000,
    new_monthly := 9000, monthly_savings := 1000, total_savings := 11000,
    expected_total := 110000, total_paid := 99000, profit_percentage := 10,
    monthly_payments := [9000, 9000, 9000, 9000, 9000, 9000, 9000, 9000, 9000, 9000, 9000],
    payment_dates := ["d1", "d2", "d3", "d4", "d5", "d6", "d7", "d8", "d9", "d10", "d11"],
    interest_rates := [100 / 9, 100 / 9, 100 / 9, 100 / 9, 100 / 9, 100 / 9,
      100 / 9, 100 / 9, 100 / 9, 100 / 9, 100 / 9] }

/-- The record produced by
`add_new_vc "VC" 120000 12 2 "2024-01-01" [9000] ["2024-01-15"]`: the
engine accepts a back-fill of one payment for `current_month = 2`, so its
`months_left` (10) differs from `num_members - len(payments)` (11). -/
def skewedVC : VC :=
  { name := "VC", total_amount := 120000, num_members := 12, current_month := 2,
    months_left := 10, bid_amount := 9000, start_date := "2024-01-01",
    is_historical := false, monthly_interest_rate := 10 / 9,
    original_monthly := 10000, new_monthly := 900, monthly_savings := 5500,
    total_savings := 11000, expected_total := 20000, total_paid := 9000,
    profit_percentage := 55, monthly_payments := [9000],
    payment_dates := ["2024-01-15"], interest_rates := [10 / 9] }

/-- The record produced by
`add_new_vc "VC" 120000 12 1 "2024-01-01" [9000] []`: the engine accepts
back-fill lists of different lengths. -/
def mismatchVC : VC := { scenarioVC with payment_dates := [] }

/-! ### Claim theorems -/

/-- C1: the claim is right and the code is wrong.  `closedVC` is an
engine-created record with `periodsLeft = 0` (closed), but `add_payment`
with a positive amount does NOT fail: it returns no error, appends the
payment, drives `months_left` to `-1` and `new_monthly` to `-9000`,
contradicting the spec, which requires a `StateError` and an unchanged
record. -/
theorem c1_closed_record_add_payment_succeeds :
    add_new_vc "Closed" 120000 12 12 "2024-01-01" [] [] = Except.ok closedVC ∧
    closedVC.months_left = 0 ∧
    (add_payment closedVC 9000 "2025-01-01").2 = none ∧
    (add_payment closedVC 9000 "2025-01-01").1.monthly_payments = [9000] ∧
    (add_payment closedVC 9000 "2025-01-01").1.months_left = -1 ∧
    (add_payment closedVC 9000 "2025-01-01").1.new_monthly = -9000 := by
  norm_num [add_new_vc, add_payment, appended, recompute_add, pdiv, map_rates,
    interest_rate_for, closedVC, show ¬ ("Closed" = "") from by decide,
    show ((0:ℤ) == 0) = true from rfl]

/-- C2 counterexample: in the spec scenario the per-payment rate equals
`100 * (12000 / 11) / (9000 * 12) = 100 / 99 ≈ 1.01`, which is nowhere
near the 10.10 stated by the spec (it differs by more than 9 percentage
points). -/
theorem c2_rate_is_one_percent_not_ten :
    add_new_vc "VC" 120000 12 1 "2024-01-01" [9000] ["2024-01-15"] =
      Except.ok scenarioVC ∧
    scenarioVC.interest_rates = [100 * (12000 / 11) / (9000 * 12)] ∧
    100 * ((12000 : ℚ) / 11) / (9000 * 12) = 100 / 99 ∧
    9 < (101 : ℚ) / 10 - 100 / 99 := by
  norm_num [add_new_vc, pdiv, map_rates, interest_rate_for, scenarioVC,
    show ¬ ("VC" = "") from by decide, show ((11:ℤ) == 0) = false from rfl]

/-- C2 amended: for totalAmount 120000, numMembers 12 and one recorded
payment of 9000 at period 1, the engine computes totalPaid 9000,
expectedTotal 10000, totalSavings 1000, monthlySavings 1000,
profitPercentage 10, periodsLeft 11, and the per-payment rate
`100 * (12000 / 11) / (9000 * 12) = 100 / 99`, approximately 1.01 percent
(not the 10.10 percent stated in the spec). -/
theorem c2_scenario_exact :
    add_new_vc "VC" 120000 12 1 "2024-01-01" [9000] ["2024-01-15"] =
      Except.ok scenarioVC ∧
    scenarioVC.original_monthly = 10000 ∧
    scenarioVC.total_paid = 9000 ∧
    scenarioVC.expected_total = 10000 ∧
    scenarioVC.total_savings = 1000 ∧
    scenarioVC.monthly_savings = 1000 ∧
    scenarioVC.profit_percentage = 10 ∧
    scenarioVC.months_left = 11 ∧
    scenarioVC.interest_rates = [100 * (12000 / 11) / (9000 * 12)] ∧
    100 * ((12000 : ℚ) / 11) / (9000 * 12) = 100 / 99 := by
  norm_num [add_new_vc, pdiv, map_rates, interest_rate_for, scenarioVC,
    show ¬ ("VC" = "") from by decide, show ((11:ℤ) == 0) = false from rfl]

/-- C3 counterexample: removing payment 0 from the engine-created
two-payment record succeeds and leaves `interest_rates = [10/9]` (the
popped stale list), while re-running the step-6 computation over the
remaining payments with the updated `periodsLeft = 11` gives `[100/99]`;
the two differ, so `removePayment` does not re-run step 6. -/
theorem c3_remove_keeps_stale_rates :
    add_new_vc "VC" 120000 12 2 "2024-01-01" [9000, 9000]
      ["2024-01-15", "2024-02-15"] = Except.ok twoPaymentVC ∧
    (remove_payment twoPaymentVC 0).2 = none ∧
    (remove_payment twoPaymentVC 0).1.months_left = 11 ∧
    (remove_payment twoPaymentVC 0).1.monthly_payments = [9000] ∧
    (remove_payment twoPaymentVC 0).1.interest_rates = [10 / 9] ∧
    map_rates 120000 12 11 [9000] = Except.ok [100 / 99] ∧
    (10 : ℚ) / 9 ≠ 100 / 99 := by
  norm_num [add_new_vc, remove_payment, popped, recompute_remove, pdiv,
    map_rates, interest_rate_for, twoPaymentVC,
    show ¬ ("VC" = "") from by decide, show ((10:ℤ) == 0) = false from rfl]

/-- C4: the claim is right and the code is wrong.  The step-6 loop divides
by `periodsLeft` unconditionally (`y = x / months_left` before the
`x > 0` guard), so with `periodsLeft = 0` it raises `ZeroDivisionError`
instead of producing rate 0: both directly and through `add_new_vc` at the
final period with a back-filled payment. -/
theorem c4_rate_loop_divzero_when_no_periods_left :
    map_rates 120000 12 0 [9000] = Except.error "ZeroDivisionError" ∧
    add_new_vc "VC" 120000 12 12 "2024-01-01" [9000] ["2024-01-15"] =
      Except.error "ZeroDivisionError" := by
  norm_num [add_new_vc, pdiv, map_rates, interest_rate_for,
    show ¬ ("VC" = "") from by decide]

/-- C5 counterexample: on the engine-created record with one period left,
`add_payment` fails with `ZeroDivisionError`, yet the resulting in-memory
record is not the unchanged input: the payment was appended (12 entries
instead of 11) and `months_left` was decremented to 0 before the failure. -/
theorem c5_failed_add_payment_mutates_record :
    add_new_vc "VC" 120000 12 11 "2024-01-01"
      [9000, 9000, 9000, 9000, 9000, 9000, 9000, 9000, 9000, 9000, 9000]
      ["d1", "d2", "d3", "d4", "d5", "d6", "d7", "d8", "d9", "d10", "d11"] =
      Except.ok lastPeriodVC ∧
    (add_payment lastPeriodVC 9000 "2025-01-01").2 = some "ZeroDivisionError" ∧
    (add_payment lastPeriodVC 9000 "2025-01-01").1.monthly_payments.length = 12 ∧
    (add_payment lastPeriodVC 9000 "2025-01-01").1.months_left = 0 ∧
    (add_payment lastPeriodVC 9000 "2025-01-01").1 ≠ lastPeriodVC := by
  refine ⟨?_, ?_, ?_, ?_, ?_⟩
  · norm_num [add_new_vc, pdiv, map_rates, interest_rate_for, lastPeriodVC,
      show ¬ ("VC" = "") from by decide, show ((1:ℤ) == 0) = false from rfl]
  · norm_num [add_payment, appended, recompute_add, pdiv, map_rates,
      interest_rate_for, lastPeriodVC]
  · norm_num [add_payment, appended, recompute_add, pdiv, map_rates,
      interest_rate_for, lastPeriodVC]
  · norm_num [add_payment, appended, recompute_add, pdiv, map_rates,
      interest_rate_for, lastPeriodVC]
  · intro h
    have h2 := congrArg VC.months_left h
    norm_num [add_payment, appended, recompute_add, pdiv, map_rates,
      interest_rate_for, lastPeriodVC] at h2

/-- C7 counterexample: adding a payment of 8000 to the engine-created
scenario record succeeds, the new last payment is 8000, but `bid_amount`
keeps its creation-time value 9000: `add_payment` never updates
`bid_amount`. -/
theorem c7_bid_amount_stale_after_add :
    (add_payment scenarioVC 8000 "2024-02-15").2 = none ∧
    (add_payment scenarioVC 8000 "2024-02-15").1.monthly_payments.getLast? =
      some 8000 ∧
    (add_payment scenarioVC 8000 "2024-02-15").1.bid_amount = 9000 ∧
    (9000 : ℚ) ≠ 8000 := by
  norm_num [add_payment, appended, recompute_add, pdiv, map_rates,
    interest_rate_for, scenarioVC]

/-- C8 counterexample: `skewedVC` is engine-created (back-fill of one
payment with `current_month = 2`), with stored `interest_rates = [10/9]`
computed from `months_left = 10`.  Removing its last payment and re-adding
the same amount and date succeeds but yields `interest_rates = [100/99]`
(recomputed with `months_left = 11`), so the round trip does not restore
the prior derived fields. -/
theorem c8_roundtrip_fails_on_engine_record :
    add_new_vc "VC" 120000 12 2 "2024-01-01" [9000] ["2024-01-15"] =
      Except.ok skewedVC ∧
    skewedVC.interest_rates = [10 / 9] ∧
    (remove_payment skewedVC 0).2 = none ∧
    (add_payment (remove_payment skewedVC 0).1 9000 "2024-01-15").2 = none ∧
    (add_payment (remove_payment skewedVC 0).1 9000 "2024-01-15").1.interest_rates =
      [100 / 99] ∧
    ([(100 : ℚ) / 99] : List ℚ) ≠ [10 / 9] := by
  norm_num [add_new_vc, add_payment, appended, recompute_add, remove_payment,
    popped, recompute_remove, pdiv, map_rates, interest_rate_for, skewedVC,
    show ¬ ("VC" = "") from by decide, show ((10:ℤ) == 0) = false from rfl]

/-- C9 counterexample: `add_new_vc` performs no length check on the
back-fill lists: called with one payment and no dates it succeeds, and the
resulting record violates
`len(payments) == len(paymentDates) == len(interestRates)`. -/
theorem c9_create_allows_mismatched_lengths :
    add_new_vc "VC" 120000 12 1 "2024-01-01" [9000] [] =
      Except.ok mismatchVC ∧
    mismatchVC.monthly_payments.length = 1 ∧
    mismatchVC.interest_rates.length = 1 ∧
    mismatchVC.payment_dates.length ≠ mismatchVC.monthly_payments.length := by
  norm_num [add_new_vc, pdiv, map_rates, interest_rate_for, mismatchVC,
    scenarioVC, show ¬ ("VC" = "") from by decide,
    show ((11:ℤ) == 0) = false from rfl]

/-- C6: for every record with exactly one period left and every positive
amount, `add_payment` raises a division-by-zero error instead of returning
a closed record: the in-place decrement makes `months_left` 0 and the
interest-rate loop then divides by it. -/
theorem c6_add_payment_final_period_divzero (vc : VC) (a : ℚ) (d : String)
    (hml : vc.months_left = 1) (ha : 0 < a) :
    (add_payment vc a d).2 = some "ZeroDivisionError" := by
  have hml0 : (appended vc a d).months_left = 0 := by simp [appended, hml]
  have hne : (appended vc a d).monthly_payments ≠ [] := by simp [appended]
  have herr : recompute_add (appended vc a d) a =
      Except.error "ZeroDivisionError" := by
    unfold recompute_add
    cases h1 : pdiv (appended vc a d).total_amount
        (((appended vc a d).num_members : ℚ)) with
    | error e => simp only [h1, (pdiv_error_inv h1).1]
    | ok em =>
      have hlen : (((appended vc a d).monthly_payments.length : ℚ)) ≠ 0 := by
        simp only [appended, List.length_append, List.length_cons,
          List.length_nil, Nat.cast_add, Nat.cast_ofNat, Nat.cast_zero]
        positivity
      have h2 := pdiv_ok_of_ne
        (em * (((appended vc a d).monthly_payments.length : ℚ)) -
          (appended vc a d).monthly_payments.sum) hlen
      have h3 := map_rates_zero_ml (appended vc a d).total_amount
        (appended vc a d).num_members hne
      simp only [h1, h2, hml0, h3]
  unfold add_payment
  rw [if_neg (not_le.mpr ha)]
  simp only [herr]

/-- C6 witness: on the engine-created record with one period left, adding
9000 fails with the division-by-zero error. -/
theorem c6_add_payment_final_period_divzero_witness :
    (add_payment lastPeriodVC 9000 "2025-01-01").2 = some "ZeroDivisionError" :=
  c6_add_payment_final_period_divzero lastPeriodVC 9000 "2025-01-01" rfl
    (by norm_num)

/-- C5 amended: the engine is atomic only for the pre-mutation validation
failures: a non-positive amount leaves the record unchanged, and an
out-of-range index (checked before the first pop) leaves the record
unchanged.  For every positive amount, however, the in-place append and
the `months_left` decrement survive in the record even when the recompute
later fails. -/
theorem c5_atomic_only_for_validation :
    (∀ (vc : VC) (a : ℚ) (d : String), a ≤ 0 →
      add_payment vc a d = (vc, some "Payment amount must be greater than 0")) ∧
    (∀ (vc : VC) (i : ℕ), vc.monthly_payments.length ≤ i →
      remove_payment vc i = (vc, some "IndexError")) ∧
    (∀ (vc : VC) (a : ℚ) (d : String), 0 < a →
      (add_payment vc a d).1.monthly_payments = vc.monthly_payments ++ [a] ∧
      (add_payment vc a d).1.months_left = vc.months_left - 1) := by
  refine ⟨?_, ?_, ?_⟩
  · intro vc a d ha
    simp [add_payment, ha]
  · intro vc i hi
    simp [remove_payment, Nat.not_lt.mpr hi]
  · intro vc a d ha
    unfold add_payment
    rw [if_neg (not_le.mpr ha)]
    cases hrec : recompute_add (appended vc a d) a with
    | error e => simp [appended]
    | ok v =>
      have hu := recompute_add_ok_unchanged hrec
      exact ⟨by rw [hu.1]; simp [appended], by rw [hu.2.2.2.1]; simp [appended]⟩

/-- C5 witness: validation failure with a non-positive amount returns the
record unchanged, and a positive amount always appends, instantiated on
the scenario record. -/
theorem c5_atomic_only_for_validation_witness :
    add_payment scenarioVC (-5) "2024-02-15" =
      (scenarioVC, some "Payment amount must be greater than 0") ∧
    (add_payment scenarioVC 8000 "2024-02-15").1.monthly_payments =
      scenarioVC.monthly_payments ++ [8000] :=
  ⟨c5_atomic_only_for_validation.1 scenarioVC (-5) "2024-02-15" (by norm_num),
   (c5_atomic_only_for_validation.2.2 scenarioVC 8000 "2024-02-15"
     (by norm_num)).1⟩

/-- C7 amended: `bid_amount` is computed only at create time (last
back-filled payment, else `total_amount / num_members`); `add_payment`
and `remove_payment` always leave it unchanged, so after an `add_payment`
it is generally not the newly appended payment. -/
theorem c7_bid_amount_set_only_at_create :
    (∀ (vc : VC) (a : ℚ) (d : String),
      (add_payment vc a d).1.bid_amount = vc.bid_amount) ∧
    (∀ (vc : VC) (i : ℕ),
      (remove_payment vc i).1.bid_amount = vc.bid_amount) ∧
    (∀ (nm sd : String) (t : ℚ) (m c : ℤ) (ps : List ℚ) (ds : List String)
      (v : VC), add_new_vc nm t m c sd ps ds = Except.ok v →
      v.bid_amount = ps.getLast?.getD (t / (m : ℚ))) := by
  refine ⟨?_, ?_, ?_⟩
  · intro vc a d
    unfold add_payment
    split
    · rfl
    · cases hrec : recompute_add (appended vc a d) a with
      | error e => simp [appended]
      | ok v =>
        have hu := recompute_add_ok_unchanged hrec
        rw [show (v, (none : Option String)).1 = v from rfl, hu.2.2.1]
        simp [appended]
  · intro vc i
    unfold remove_payment
    split
    · split
      · split
        · cases hrec : recompute_remove (popped vc i) with
          | error e => simp [popped]
          | ok v =>
            have hu := recompute_remove_ok_unchanged hrec
            rw [show (v, (none : Option String)).1 = v from rfl, hu.2.2.2.1]
            simp [popped]
        · rfl
      · rfl
    · rfl
  · intro nm sd t m c ps ds v h
    exact (add_new_vc_ok_inv h).2.2.2

/-- C7 amended witness: instantiated on the scenario record created with a
back-filled payment of 9000 and on an added payment of 8000. -/
theorem c7_bid_amount_set_only_at_create_witness :
    (add_payment scenarioVC 8000 "2024-02-15").1.bid_amount =
      scenarioVC.bid_amount ∧
    scenarioVC.bid_amount = ([9000] : List ℚ).getLast?.getD (120000 / ((12 : ℤ) : ℚ)) :=
  ⟨c7_bid_amount_set_only_at_create.1 scenarioVC 8000 "2024-02-15",
   c7_bid_amount_set_only_at_create.2.2 "VC" "2024-01-01" 120000 12 1 [9000]
     ["2024-01-15"] scenarioVC (by
      norm_num [add_new_vc, pdiv, map_rates, interest_rate_for, scenarioVC,
        show ¬ ("VC" = "") from by decide,
        show ((11:ℤ) == 0) = false from rfl])⟩

/-- C9 amended: the length invariant holds after `add_new_vc` provided the
back-fill lists have equal length (the code never checks this), and it is
preserved by every successful `add_payment` and `remove_payment` whose
input record satisfies it. -/
theorem c9_lengths_equal_when_inputs_paired :
    (∀ (nm sd : String) (t : ℚ) (m c : ℤ) (ps : List ℚ) (ds : List String)
      (v : VC), ds.length = ps.length →
      add_new_vc nm t m c sd ps ds = Except.ok v →
      v.payment_dates.length = v.monthly_payments.length ∧
      v.interest_rates.length = v.monthly_payments.length) ∧
    (∀ (vc v : VC) (a : ℚ) (d : String),
      vc.payment_dates.length = vc.monthly_payments.length →
      add_payment vc a d = (v, none) →
      v.payment_dates.length = v.monthly_payments.length ∧
      v.interest_rates.length = v.monthly_payments.length) ∧
    (∀ (vc v : VC) (i : ℕ),
      vc.payment_dates.length = vc.monthly_payments.length →
      vc.interest_rates.length = vc.monthly_payments.length →
      remove_payment vc i = (v, none) →
      v.payment_dates.length = v.monthly_payments.length ∧
      v.interest_rates.length = v.monthly_payments.length) := by
  refine ⟨?_, ?_, ?_⟩
  · intro nm sd t m c ps ds v hlen h
    obtain ⟨hmp, hpd, hrs, _⟩ := add_new_vc_ok_inv h
    rw [hmp, hpd, map_rates_length hrs]
    exact ⟨hlen, rfl⟩
  · intro vc v a d hlen h
    obtain ⟨ha, hrec⟩ := add_payment_ok_inv h
    have hu := recompute_add_ok_unchanged hrec
    have hir := map_rates_length (recompute_add_ok_conds hrec).2.2.2
    rw [hu.1, hu.2.1, hir]
    simp [appended, hlen]
  · intro vc v i hlen hrlen h
    obtain ⟨hi, hd, hr, hrec⟩ := remove_payment_ok_inv h
    have hu := recompute_remove_ok_unchanged hrec
    have e1 := List.length_eraseIdx_add_one hi
    have e2 := List.length_eraseIdx_add_one hd
    have e3 := List.length_eraseIdx_add_one hr
    rw [hu.1, hu.2.1, hu.2.2.1]
    simp only [popped]
    omega

/-- C9 amended witness: instantiated on the scenario record (paired
back-fill) and a successful add and remove on it. -/
theorem c9_lengths_equal_when_inputs_paired_witness :
    scenarioVC.payment_dates.length = scenarioVC.monthly_payments.length ∧
    scenarioVC.interest_rates.length = scenarioVC.monthly_payments.length :=
  c9_lengths_equal_when_inputs_paired.1 "VC" "2024-01-01" 120000 12 1 [9000]
    ["2024-01-15"] scenarioVC rfl (by
      norm_num [add_new_vc, pdiv, map_rates, interest_rate_for, scenarioVC,
        show ¬ ("VC" = "") from by decide,
        show ((11:ℤ) == 0) = false from rfl])

/-- C10: `interest_calculator` computes, for positive inputs with
`total - bid > 0`, exactly the spec formulas; on the concrete scenario it
returns expectedMonthly 10000, diff 20000, monthlyBid 16000, rate 80,
newMonthly 8000, monthlySavings 2000; and it fails with the validation
errors when `diff ≤ 0` or any input is non-positive. -/
theorem c10_interest_calculator_spec :
    (∀ (t : ℚ) (m pl : ℤ) (b : ℚ), 0 < t → 0 < m → 0 < pl → 0 < b →
      0 < t - b →
      interest_calculator t m pl b = Except.ok
        { expected_monthly := t / (m : ℚ)
          remaining_amount := t - b
          monthly_bid := b / (pl : ℚ)
          monthly_interest_rate := 100 * (b / (pl : ℚ)) / (t - b)
          new_monthly := b / (m : ℚ)
          monthly_savings := t / (m : ℚ) - b / (m : ℚ) }) ∧
    interest_calculator 100000 10 5 80000 = Except.ok
      { expected_monthly := 10000, remaining_amount := 20000,
        monthly_bid := 16000, monthly_interest_rate := 80,
        new_monthly := 8000, monthly_savings := 2000 } ∧
    (∀ (t : ℚ) (m pl : ℤ) (b : ℚ), 0 < t → 0 < m → 0 < pl → 0 < b →
      t - b ≤ 0 →
      interest_calculator t m pl b = Except.error
        "The difference between Total VC and Bid Amount cannot be zero") ∧
    (∀ (t : ℚ) (m pl : ℤ) (b : ℚ), t ≤ 0 ∨ m ≤ 0 ∨ pl ≤ 0 ∨ b ≤ 0 →
      interest_calculator t m pl b = Except.error
        "Please enter valid values for all fields") := by
  refine ⟨?_, ?_, ?_, ?_⟩
  · intro t m pl b ht hm hpl hb hx
    simp only [interest_calculator]
    rw [if_pos ⟨ht, hpl, hb, hm⟩, if_pos hx]
    simp only [Except.ok.injEq, CalcResult.mk.injEq, true_and, and_true]
    ring
  · norm_num [interest_calculator]
  · intro t m pl b ht hm hpl hb hx
    simp only [interest_calculator]
    rw [if_pos ⟨ht, hpl, hb, hm⟩, if_neg (not_lt.mpr hx)]
  · intro t m pl b h
    simp only [interest_calculator]
    rw [if_neg]
    rintro ⟨h1, h2, h3, h4⟩
    rcases h with h | h | h | h
    · linarith
    · omega
    · omega
    · linarith

/-- C10 witness: the general formula instantiated at the spec scenario. -/
theorem c10_interest_calculator_spec_witness :
    interest_calculator 100000 10 5 80000 = Except.ok
      { expected_monthly := 100000 / ((10 : ℤ) : ℚ)
        remaining_amount := 100000 - 80000
        monthly_bid := 80000 / ((5 : ℤ) : ℚ)
        monthly_interest_rate := 100 * (80000 / ((5 : ℤ) : ℚ)) / (100000 - 80000)
        new_monthly := 80000 / ((10 : ℤ) : ℚ)
        monthly_savings := 100000 / ((10 : ℤ) : ℚ) - 80000 / ((10 : ℤ) : ℚ) } :=
  c10_interest_calculator_spec.1 100000 10 5 80000 (by norm_num) (by norm_num)
    (by norm_num) (by norm_num) (by norm_num)

/-- C3 amended: for every record and in-range index (with the length
invariant on the input, a nonzero member count, and the resulting
`months_left` nonzero when payments remain), `remove_payment` removes the
i-th entry from all three sequences, sets
`current_month = len(payments) + 1` and
`periodsLeft = num_members - len(payments)`, and recomputes the step-3-5
aggregate fields; but `interest_rates` is only the popped original list
(step 6 is NOT re-run) and `bid_amount` is untouched. -/
theorem c3_remove_pops_without_rate_recompute (vc : VC) (i : ℕ)
    (hi : i < vc.monthly_payments.length)
    (hd : i < vc.payment_dates.length)
    (hr : i < vc.interest_rates.length)
    (hm : (vc.num_members : ℚ) ≠ 0)
    (hml : vc.num_members ≠ (vc.monthly_payments.length : ℤ) - 1) :
    (remove_payment vc i).2 = none ∧
    (remove_payment vc i).1.monthly_payments = vc.monthly_payments.eraseIdx i ∧
    (remove_payment vc i).1.payment_dates = vc.payment_dates.eraseIdx i ∧
    (remove_payment vc i).1.interest_rates = vc.interest_rates.eraseIdx i ∧
    (remove_payment vc i).1.current_month =
      ((vc.monthly_payments.eraseIdx i).length : ℤ) + 1 ∧
    (remove_payment vc i).1.months_left =
      vc.num_members - ((vc.monthly_payments.eraseIdx i).length : ℤ) ∧
    (remove_payment vc i).1.total_paid = (vc.monthly_payments.eraseIdx i).sum ∧
    (remove_payment vc i).1.original_monthly =
      vc.total_amount / (vc.num_members : ℚ) ∧
    (remove_payment vc i).1.expected_total =
      vc.total_amount / (vc.num_members : ℚ) *
        ((vc.monthly_payments.eraseIdx i).length : ℚ) ∧
    (remove_payment vc i).1.bid_amount = vc.bid_amount := by
  have hmm : ((popped vc i).num_members : ℚ) ≠ 0 := by
    simpa [popped] using hm
  by_cases hemp : vc.monthly_payments.eraseIdx i = []
  · have hok := recompute_remove_ok_of_nil hmm
      (by simpa [popped] using hemp)
    unfold remove_payment
    rw [if_pos hi, if_pos hd, if_pos hr]
    simp only [hok]
    simp [popped, hemp]
  · have herlen : ((vc.monthly_payments.eraseIdx i).length : ℤ) =
        (vc.monthly_payments.length : ℤ) - 1 := by
      have := List.length_eraseIdx_add_one hi
      omega
    have hml2 : (((popped vc i).months_left : ℚ)) ≠ 0 := by
      have h0 : (popped vc i).months_left ≠ 0 := by
        simp only [popped]
        omega
      exact Int.cast_ne_zero.mpr h0
    have hok := recompute_remove_ok_of_ne_nil hmm
      (by simpa [popped] using hemp) hml2
    unfold remove_payment
    rw [if_pos hi, if_pos hd, if_pos hr]
    simp only [hok]
    simp [popped]

/-- C3 amended witness: instantiated on the engine-created two-payment
record at index 0. -/
theorem c3_remove_pops_without_rate_recompute_witness :
    (remove_payment twoPaymentVC 0).2 = none ∧
    (remove_payment twoPaymentVC 0).1.monthly_payments =
      twoPaymentVC.monthly_payments.eraseIdx 0 ∧
    (remove_payment twoPaymentVC 0).1.payment_dates =
      twoPaymentVC.payment_dates.eraseIdx 0 ∧
    (remove_payment twoPaymentVC 0).1.interest_rates =
      twoPaymentVC.interest_rates.eraseIdx 0 ∧
    (remove_payment twoPaymentVC 0).1.current_month =
      ((twoPaymentVC.monthly_payments.eraseIdx 0).length : ℤ) + 1 ∧
    (remove_payment twoPaymentVC 0).1.months_left =
      twoPaymentVC.num_members -
        ((twoPaymentVC.monthly_payments.eraseIdx 0).length : ℤ) ∧
    (remove_payment twoPaymentVC 0).1.total_paid =
      (twoPaymentVC.monthly_payments.eraseIdx 0).sum ∧
    (remove_payment twoPaymentVC 0).1.original_monthly =
      twoPaymentVC.total_amount / (twoPaymentVC.num_members : ℚ) ∧
    (remove_payment twoPaymentVC 0).1.expected_total =
      twoPaymentVC.total_amount / (twoPaymentVC.num_members : ℚ) *
        ((twoPaymentVC.monthly_payments.eraseIdx 0).length : ℚ) ∧
    (remove_payment twoPaymentVC 0).1.bid_amount = twoPaymentVC.bid_amount :=
  c3_remove_pops_without_rate_recompute twoPaymentVC 0
    (by norm_num [twoPaymentVC]) (by norm_num [twoPaymentVC])
    (by norm_num [twoPaymentVC]) (by norm_num [twoPaymentVC])
    (by norm_num [twoPaymentVC])

/-- A successful recompute after the in-place append determines the full
result of `add_payment`. -/
lemma add_payment_eq_of_recompute {vc w : VC} {a : ℚ} {d : String} (ha : 0 < a)
    (h : recompute_add (appended vc a d) a = Except.ok w) :
    add_payment vc a d = (w, none) := by
  unfold add_payment
  rw [if_neg (not_le.mpr ha)]
  simp only [h]

/-- C8 amended: for the simple append/remove-last case starting from a
consistent base record - one with paired date list and bookkeeping
`months_left = num_members - len(payments)`, open with at least two
periods left - a successful `add_payment` followed by removing that last
payment and re-adding the same amount and date restores all nine derived
fields of the record the first `add_payment` produced. -/
theorem c8_roundtrip_after_add (vc0 v1 : VC) (p : ℚ) (d : String)
    (hbk : vc0.months_left = vc0.num_members - (vc0.monthly_payments.length : ℤ))
    (hlen : vc0.payment_dates.length = vc0.monthly_payments.length)
    (hopen : 2 ≤ vc0.months_left)
    (hadd : add_payment vc0 p d = (v1, none)) :
    ∃ v2 v3,
      remove_payment v1 (v1.monthly_payments.length - 1) = (v2, none) ∧
      add_payment v2 p d = (v3, none) ∧
      v3.original_monthly = v1.original_monthly ∧
      v3.total_paid = v1.total_paid ∧
      v3.expected_total = v1.expected_total ∧
      v3.total_savings = v1.total_savings ∧
      v3.monthly_savings = v1.monthly_savings ∧
      v3.profit_percentage = v1.profit_percentage ∧
      v3.interest_rates = v1.interest_rates ∧
      v3.bid_amount = v1.bid_amount ∧
      v3.new_monthly = v1.new_monthly := by
  obtain ⟨hp, hrec⟩ := add_payment_ok_inv hadd
  obtain ⟨hm1, hl1, hml1, hrs1⟩ := recompute_add_ok_conds hrec
  have hu1 := recompute_add_ok_unchanged hrec
  have hm0 : (vc0.num_members : ℚ) ≠ 0 := by simpa [appended] using hm1
  have hmlA : ((vc0.months_left - 1 : ℤ) : ℚ) ≠ 0 := by
    simpa [appended] using hml1
  have hv1mp : v1.monthly_payments = vc0.monthly_payments ++ [p] := by
    rw [hu1.1]; rfl
  have hv1pd : v1.payment_dates = vc0.payment_dates ++ [d] := by
    rw [hu1.2.1]; rfl
  have hv1len : v1.monthly_payments.length = vc0.monthly_payments.length + 1 := by
    simp [hv1mp]
  have hidx : v1.monthly_payments.length - 1 = vc0.monthly_payments.length := by
    omega
  have hirlen : v1.interest_rates.length = vc0.monthly_payments.length + 1 := by
    have := map_rates_length hrs1
    simpa [appended] using this
  have hi : vc0.monthly_payments.length < v1.monthly_payments.length := by omega
  have hd2 : vc0.monthly_payments.length < v1.payment_dates.length := by
    simp [hv1pd]; omega
  have hr2 : vc0.monthly_payments.length < v1.interest_rates.length := by omega
  have hPerase : v1.monthly_payments.eraseIdx vc0.monthly_payments.length =
      vc0.monthly_payments := by
    rw [hv1mp]; exact eraseIdx_append_singleton _ _
  have hPdate : v1.payment_dates.eraseIdx vc0.monthly_payments.length =
      vc0.payment_dates := by
    rw [hv1pd, ← hlen]; exact eraseIdx_append_singleton _ _
  have hPmembers : (popped v1 vc0.monthly_payments.length).num_members =
      vc0.num_members := by
    simp [popped, hu1.2.2.2.2.2.1, appended]
  have hPml : (popped v1 vc0.monthly_payments.length).months_left =
      vc0.num_members - (vc0.monthly_payments.length : ℤ) := by
    simp only [popped, hPerase, hu1.2.2.2.2.2.1]
    simp [appended]
  have hmP : ((popped v1 vc0.monthly_payments.length).num_members : ℚ) ≠ 0 := by
    rw [hPmembers]; exact hm0
  have hok : ∃ w, recompute_remove (popped v1 vc0.monthly_payments.length) =
      Except.ok w := by
    by_cases hcase : vc0.monthly_payments = []
    · exact ⟨_, recompute_remove_ok_of_nil hmP
        (by simp only [popped]; rw [hPerase, hcase])⟩
    · refine ⟨_, recompute_remove_ok_of_ne_nil hmP
        (by simp [popped, hPerase, hcase]) ?_⟩
      rw [hPml, ← hbk]
      exact Int.cast_ne_zero.mpr (by omega)
  obtain ⟨v2, hok⟩ := hok
  have hu2 := recompute_remove_ok_unchanged hok
  have hremove : remove_payment v1 (v1.monthly_payments.length - 1) =
      (v2, none) := by
    rw [hidx]
    unfold remove_payment
    rw [if_pos hi, if_pos hd2, if_pos hr2]
    simp only [hok]
  have hv2mp : v2.monthly_payments = vc0.monthly_payments := by
    rw [hu2.1]; simp [popped, hPerase]
  have hv2ml : v2.months_left = vc0.months_left := by
    rw [hu2.2.2.2.2.1, hPml, hbk]
  have hv2m : v2.num_members = vc0.num_members := by
    rw [hu2.2.2.2.2.2.2.1, hPmembers]
  have hv2t : v2.total_amount = vc0.total_amount := by
    rw [hu2.2.2.2.2.2.2.2]
    simp [popped, appended, hu1.2.2.2.2.2.2.1]
  have hv2bid : v2.bid_amount = v1.bid_amount := by
    rw [hu2.2.2.2.1]; simp [popped]
  have eT : (appended v2 p d).total_amount = (appended vc0 p d).total_amount := by
    simp [appended, hv2t]
  have eM : (appended v2 p d).num_members = (appended vc0 p d).num_members := by
    simp [appended, hv2m]
  have eL : (appended v2 p d).monthly_payments =
      (appended vc0 p d).monthly_payments := by
    simp [appended, hv2mp]
  have eml : (appended v2 p d).months_left = (appended vc0 p d).months_left := by
    simp [appended, hv2ml]
  have hrsA2 : map_rates (appended v2 p d).total_amount
      (appended v2 p d).num_members (appended v2 p d).months_left
      (appended v2 p d).monthly_payments = Except.ok v1.interest_rates := by
    rw [eT, eM, eL, eml]
    exact hrs1
  have hmA2 : ((appended v2 p d).num_members : ℚ) ≠ 0 := by
    rw [eM]; exact hm1
  have hlA2 : (((appended v2 p d).monthly_payments.length : ℚ)) ≠ 0 := by
    rw [eL]; exact hl1
  have hmlA2 : (((appended v2 p d).months_left : ℚ)) ≠ 0 := by
    rw [eml]; exact hml1
  have hreadd := recompute_add_ok_intro (appended v2 p d) p v1.interest_rates
    hmA2 hlA2 hmlA2 hrsA2
  have hintro1 := recompute_add_ok_intro (appended vc0 p d) p v1.interest_rates
    hm1 hl1 hml1 hrs1
  have hv1eq := Except.ok.inj (hrec.symm.trans hintro1)
  have haddv2 := add_payment_eq_of_recompute hp hreadd
  refine ⟨v2, _, hremove, haddv2, ?_, ?_, ?_, ?_, ?_, ?_, ?_, ?_, ?_⟩
  all_goals rw [hv1eq]
  all_goals dsimp only
  · rw [eT, eM]
  · rw [eL]
  · rw [eT, eM, eL]
  · rw [eT, eM, eL]
  · rw [eT, eM, eL]
  · rw [eT, eM, eL]
  · simp only [appended]
    rw [hv2bid, hu1.2.2.1]
    simp [appended]
  · rw [eml]

/-- The record produced by adding a payment of 8000 to `scenarioVC`. -/
def scenarioAdded : VC :=
  { name := "VC", total_amount := 120000, num_members := 12, current_month := 2,
    months_left := 10, bid_amount := 9000, start_date := "2024-01-01",
    is_historical := false, monthly_interest_rate := 100 / 99,
    original_monthly := 10000, new_monthly := 800, monthly_savings := 1500,
    total_savings := 3000, expected_total := 20000, total_paid := 17000,
    profit_percentage := 15, monthly_payments := [9000, 8000],
    payment_dates := ["2024-01-15", "2024-02-15"],
    interest_rates := [10 / 9, 5 / 2] }

/-- C8 amended witness: the round trip instantiated on the scenario record
after adding a payment of 8000. -/
theorem c8_roundtrip_after_add_witness :
    ∃ v2 v3,
      remove_payment scenarioAdded
        (scenarioAdded.monthly_payments.length - 1) = (v2, none) ∧
      add_payment v2 8000 "2024-02-15" = (v3, none) ∧
      v3.original_monthly = scenarioAdded.original_monthly ∧
      v3.total_paid = scenarioAdded.total_paid ∧
      v3.expected_total = scenarioAdded.expected_total ∧
      v3.total_savings = scenarioAdded.total_savings ∧
      v3.monthly_savings = scenarioAdded.monthly_savings ∧
      v3.profit_percentage = scenarioAdded.profit_percentage ∧
      v3.interest_rates = scenarioAdded.interest_rates ∧
      v3.bid_amount = scenarioAdded.bid_amount ∧
      v3.new_monthly = scenarioAdded.new_monthly :=
  c8_roundtrip_after_add scenarioVC scenarioAdded 8000 "2024-02-15"
    (by norm_num [scenarioVC]) (by norm_num [scenarioVC])
    (by norm_num [scenarioVC])
    (by norm_num [add_payment, appended, recompute_add, pdiv, map_rates,
      interest_rate_for, scenarioVC, scenarioAdded])

end VCTracker
